import Mathlib

/-!
Verification of the GPA-Calculator grade-calculation module
(`src/utils/calculations.ts`, consumed by `src/components/GPACalculator.tsx`).

The module is pure arithmetic over course and semester records.  We embed it
shallowly: TypeScript numbers become exact rationals (ℚ), records become
structures, and the `reduce`-based sums become `List.foldl`.  The stateful
`handleSave` handler is modelled by its data path: validation, filtering of
incomplete courses, and construction of the persisted `Semester` record
(alerts and form resets are UI effects outside the data model).
-/

namespace GPACalc

/-- A course row as entered in the calculator: name, credit hours, letter
grade and the grade point derived from the grade under the active scale. -/
structure Course where
  name : String
  credits : ℚ
  grade : String
  gradePoint : ℚ
deriving Repr, DecidableEq

/-- A persisted semester: its courses plus the derived `gpa` and
`totalCredits` fields computed at save time. -/
structure Semester where
  name : String
  courses : List Course
  gpa : ℚ
  totalCredits : ℚ
deriving Repr, DecidableEq

/-- `getGradeScale` from `calculations.ts`: the letter-grade → grade-point
table, as an association list in the source's key order.  `maxScale = 5.0`
selects the 5.0 table; anything else falls through to the 4.0 table. -/
def getGradeScale (maxScale : ℚ) : List (String × ℚ) :=
  if maxScale = 5 then
    [("A+", 5), ("A", 4.5), ("B+", 4), ("B", 3.5), ("C+", 3), ("C", 2.5),
     ("D+", 2), ("D", 1.5), ("F", 0)]
  else
    [("A+", 4), ("A", 4), ("B+", 3.5), ("B", 3), ("C+", 2.5), ("C", 2),
     ("D+", 1.5), ("D", 1), ("F", 0)]

/-- `calculateGPA` from `calculations.ts`: guard on the empty list, fold the
quality points and the credits, and divide only when credits are positive. -/
def calculateGPA (courses : List Course) : ℚ :=
  if courses.length = 0 then 0
  else
    let totalPoints := courses.foldl (fun sum course => sum + course.gradePoint * course.credits) 0
    let totalCredits := courses.foldl (fun sum course => sum + course.credits) 0
    if totalCredits > 0 then totalPoints / totalCredits else 0

/-- `calculateCGPA` from `calculations.ts`: the same weighted mean one level
up, over semesters weighted by their `totalCredits`. -/
def calculateCGPA (semesters : List Semester) : ℚ :=
  if semesters.length = 0 then 0
  else
    let totalPoints := semesters.foldl (fun sum sem => sum + sem.gpa * sem.totalCredits) 0
    let totalCredits := semesters.foldl (fun sum sem => sum + sem.totalCredits) 0
    if totalCredits > 0 then totalPoints / totalCredits else 0

/-- `calculateRequiredGPA` from `calculations.ts`. -/
def calculateRequiredGPA (currentCGPA currentCredits targetCGPA remainingCredits : ℚ) : ℚ :=
  if remainingCredits ≤ 0 then 0
  else
    let totalCreditsNeeded := currentCredits + remainingCredits
    let totalPointsNeeded := targetCGPA * totalCreditsNeeded
    let currentPoints := currentCGPA * currentCredits
    let requiredPoints := totalPointsNeeded - currentPoints
    requiredPoints / remainingCredits

/-- The record `{ class, color }` returned by `getAcademicClass`. -/
structure AcademicClass where
  «class» : String
  color : String
deriving Repr, DecidableEq

/-- `getAcademicClass` from `calculations.ts`: the descending six-band
classification ladder, one ladder per scale. -/
def getAcademicClass (cgpa gradingScale : ℚ) : AcademicClass :=
  if gradingScale = 5 then
    if cgpa ≥ 4.5 then ⟨"First Class", "#1e8449"⟩
    else if cgpa ≥ 3.5 then ⟨"Second Class (Upper)", "#196f3d"⟩
    else if cgpa ≥ 2.5 then ⟨"Second Class (Lower)", "#5dade2"⟩
    else if cgpa ≥ 2 then ⟨"Third Class", "#f5b041"⟩
    else if cgpa ≥ 1.5 then ⟨"Pass", "#eb984e"⟩
    else ⟨"Fail", "#ec7063"⟩
  else
    if cgpa ≥ 3.6 then ⟨"First Class", "#201e84"⟩
    else if cgpa ≥ 3 then ⟨"Second Class (Upper)", "#e4d726"⟩
    else if cgpa ≥ 2 then ⟨"Second Class (Lower)", "#c1e911"⟩
    else if cgpa ≥ 1.5 then ⟨"Third Class", "#f5b041"⟩
    else if cgpa ≥ 1 then ⟨"Pass", "#8b0c81"⟩
    else ⟨"Fail", "#f0210a"⟩

/-- `getGradeFromMarks` from `calculations.ts`: marks outside [0,100] yield
the empty string, otherwise the descending threshold table of the scale. -/
def getGradeFromMarks (marks gradingScale : ℚ) : String :=
  if marks < 0 ∨ marks > 100 then ""
  else if gradingScale = 5 then
    if marks ≥ 80 then "A+"
    else if marks ≥ 70 then "A"
    else if marks ≥ 65 then "B+"
    else if marks ≥ 60 then "B"
    else if marks ≥ 55 then "C+"
    else if marks ≥ 50 then "C"
    else if marks ≥ 45 then "D+"
    else if marks ≥ 40 then "D"
    else "F"
  else
    if marks ≥ 80 then "A"
    else if marks ≥ 75 then "B+"
    else if marks ≥ 70 then "B"
    else if marks ≥ 65 then "C+"
    else if marks ≥ 60 then "C"
    else if marks ≥ 55 then "D+"
    else if marks ≥ 50 then "D"
    else "F"

/-- The validity predicate `c.name && c.credits > 0 && c.grade` used by
`handleSave` in `GPACalculator.tsx` to filter out incomplete courses
(TypeScript string truthiness = the string is non-empty). -/
def Course.isValid (c : Course) : Prop :=
  c.name ≠ "" ∧ 0 < c.credits ∧ c.grade ≠ ""

instance (c : Course) : Decidable c.isValid := by
  unfold Course.isValid; infer_instance

/-- JavaScript `String.prototype.trim`: strip whitespace from both ends of
the string (structurally recursive over the character list so that it
evaluates on concrete inputs). -/
def trimString (s : String) : String :=
  ⟨((s.data.dropWhile Char.isWhitespace).reverse.dropWhile Char.isWhitespace).reverse⟩

/-- The data path of `handleSave` in `GPACalculator.tsx`: reject a blank
semester name, filter out incomplete courses, reject an all-invalid list,
otherwise build the persisted `Semester` with its derived fields.  The two
`alert` early returns become `none`. -/
def handleSave (semesterName : String) (courses : List Course) : Option Semester :=
  if trimString semesterName = "" then none
  else
    let validCourses := courses.filter fun c => decide c.isValid
    if validCourses.length = 0 then none
    else some
      { name := semesterName
        courses := validCourses
        gpa := calculateGPA validCourses
        totalCredits := validCourses.foldl (fun sum c => sum + c.credits) 0 }

/-- Spec-side view of a descending first-match-wins threshold table: walk the
(threshold, label) rows in order and return the first label whose threshold
the value meets, or the fallback. -/
def firstMatch (table : List (ℚ × String)) (fallback : String) (x : ℚ) : String :=
  match table with
  | [] => fallback
  | (t, g) :: rest => if t ≤ x then g else firstMatch rest fallback x

/-- The descending marks→grade threshold table of the 5.0 scale, as listed
in the spec (first match wins, `F` is the fallback). -/
def gradeTable5 : List (ℚ × String) :=
  [(80, "A+"), (70, "A"), (65, "B+"), (60, "B"), (55, "C+"), (50, "C"),
   (45, "D+"), (40, "D")]

/-- The descending marks→grade threshold table of the 4.0 scale, as listed
in the spec (first match wins, `F` is the fallback). -/
def gradeTable4 : List (ℚ × String) :=
  [(80, "A"), (75, "B+"), (70, "B"), (65, "C+"), (60, "C"), (55, "D+"),
   (50, "D")]

/-- The descending CGPA→class ladder of the 5.0 scale, as listed in the
spec (first match wins, `Fail` is the fallback). -/
def classLadder5 : List (ℚ × String) :=
  [(4.5, "First Class"), (3.5, "Second Class (Upper)"),
   (2.5, "Second Class (Lower)"), (2, "Third Class"), (1.5, "Pass")]

/-- The descending CGPA→class ladder of the 4.0 (default) scale, as listed
in the spec (first match wins, `Fail` is the fallback). -/
def classLadder4 : List (ℚ × String) :=
  [(3.6, "First Class"), (3, "Second Class (Upper)"),
   (2, "Second Class (Lower)"), (1.5, "Third Class"), (1, "Pass")]

/-- The accumulating fold used by the source's `reduce(..., 0)` equals the
sum of the mapped list. -/
theorem foldl_add_map {α : Type} (f : α → ℚ) (l : List α) (init : ℚ) :
    l.foldl (fun sum x => sum + f x) init = init + (l.map f).sum := by
  induction l generalizing init with
  | nil => simp
  | cons a t ih => simp [ih, add_assoc]

/-- C1: `calculateGPA` returns the credit-weighted mean grade point
`sum(gradePoint_i * credits_i) / sum(credits_i)`, and returns 0 when the
course list is empty or its total credits are zero.  Credits are
non-negative rationals per the data model. -/
theorem C1_calculateGPA_weighted_mean (courses : List Course)
    (h : ∀ c ∈ courses, 0 ≤ c.credits) :
    calculateGPA courses =
      if courses = [] ∨ (courses.map fun c => c.credits).sum = 0 then 0
      else (courses.map fun c => c.gradePoint * c.credits).sum /
        (courses.map fun c => c.credits).sum := by
  have hnn : 0 ≤ (courses.map fun c => c.credits).sum := by
    refine List.sum_nonneg ?_
    intro x hx
    obtain ⟨c, hc, rfl⟩ := List.mem_map.mp hx
    exact h c hc
  simp only [calculateGPA, foldl_add_map, zero_add]
  rcases eq_or_ne courses [] with rfl | hne
  · simp
  · have hlen : ¬ courses.length = 0 := by simpa [List.length_eq_zero] using hne
    simp only [hlen, if_false, hne, false_or]
    rcases eq_or_ne ((courses.map fun c => c.credits).sum) 0 with hz | hz
    · simp [hz]
    · have hpos : 0 < (courses.map fun c => c.credits).sum :=
        lt_of_le_of_ne hnn (Ne.symm hz)
      simp [hpos, hz]

/-- Witness for C1 at a concrete two-course list. -/
theorem C1_witness :
    calculateGPA [⟨"Math", 3, "A", 4⟩, ⟨"Phys", 4, "B", 3⟩] =
      if ([⟨"Math", 3, "A", 4⟩, ⟨"Phys", 4, "B", 3⟩] : List Course) = [] ∨
          (([⟨"Math", 3, "A", 4⟩, ⟨"Phys", 4, "B", 3⟩] : List Course).map
            fun c => c.credits).sum = 0 then 0
      else (([⟨"Math", 3, "A", 4⟩, ⟨"Phys", 4, "B", 3⟩] : List Course).map
          fun c => c.gradePoint * c.credits).sum /
        (([⟨"Math", 3, "A", 4⟩, ⟨"Phys", 4, "B", 3⟩] : List Course).map
          fun c => c.credits).sum :=
  C1_calculateGPA_weighted_mean _ (by decide)

/-- C2: `calculateCGPA` is the same weighted mean one level up,
`sum(gpa_i * totalCredits_i) / sum(totalCredits_i)`, returning 0 for an
empty semester list or zero total credits; in particular a single semester
with gpa 3.0 over 10 credits gives CGPA 3.0. -/
theorem C2_calculateCGPA_weighted_mean :
    (∀ semesters : List Semester, (∀ s ∈ semesters, 0 ≤ s.totalCredits) →
      calculateCGPA semesters =
        if semesters = [] ∨ (semesters.map fun s => s.totalCredits).sum = 0 then 0
        else (semesters.map fun s => s.gpa * s.totalCredits).sum /
          (semesters.map fun s => s.totalCredits).sum) ∧
    calculateCGPA [⟨"Sem 1", [], 3, 10⟩] = 3 := by
  constructor
  · intro semesters h
    have hnn : 0 ≤ (semesters.map fun s => s.totalCredits).sum := by
      refine List.sum_nonneg ?_
      intro x hx
      obtain ⟨s, hs, rfl⟩ := List.mem_map.mp hx
      exact h s hs
    simp only [calculateCGPA, foldl_add_map, zero_add]
    rcases eq_or_ne semesters [] with rfl | hne
    · simp
    · have hlen : ¬ semesters.length = 0 := by simpa [List.length_eq_zero] using hne
      simp only [hlen, if_false, hne, false_or]
      rcases eq_or_ne ((semesters.map fun s => s.totalCredits).sum) 0 with hz | hz
      · simp [hz]
      · have hpos : 0 < (semesters.map fun s => s.totalCredits).sum :=
          lt_of_le_of_ne hnn (Ne.symm hz)
        simp [hpos, hz]
  · norm_num [calculateCGPA]

/-- Witness for C2 at a concrete one-semester list. -/
theorem C2_witness :
    calculateCGPA [⟨"Sem 1", [], 3, 10⟩] =
      if ([⟨"Sem 1", [], 3, 10⟩] : List Semester) = [] ∨
          (([⟨"Sem 1", [], 3, 10⟩] : List Semester).map
            fun s => s.totalCredits).sum = 0 then 0
      else (([⟨"Sem 1", [], 3, 10⟩] : List Semester).map
          fun s => s.gpa * s.totalCredits).sum /
        (([⟨"Sem 1", [], 3, 10⟩] : List Semester).map
          fun s => s.totalCredits).sum :=
  C2_calculateCGPA_weighted_mean.1 _ (by decide)

/-- C3: `calculateRequiredGPA` returns 0 when `remainingCredits ≤ 0` and
otherwise exactly
`((targetCGPA * (currentCredits + remainingCredits)) - (currentCGPA * currentCredits)) / remainingCredits`,
with no clamping, so the result may exceed the scale maximum:
`calculateRequiredGPA 3 30 3.5 10 = 5`. -/
theorem C3_calculateRequiredGPA_formula :
    (∀ currentCGPA currentCredits targetCGPA remainingCredits : ℚ,
      calculateRequiredGPA currentCGPA currentCredits targetCGPA remainingCredits =
        if remainingCredits ≤ 0 then 0
        else (targetCGPA * (currentCredits + remainingCredits) -
          currentCGPA * currentCredits) / remainingCredits) ∧
    calculateRequiredGPA 3 30 3.5 10 = 5 := by
  constructor
  · intro currentCGPA currentCredits targetCGPA remainingCredits
    rfl
  · norm_num [calculateRequiredGPA]

/-- C4: for in-range marks, `getGradeFromMarks` agrees with the descending
first-match-wins threshold table of the selected scale (the 5.0 table for
the selector 5.0, the 4.0 table for every other selector), with `F` as the
fallback grade. -/
theorem C4_getGradeFromMarks_table (marks gradingScale : ℚ)
    (h0 : 0 ≤ marks) (h100 : marks ≤ 100) :
    getGradeFromMarks marks gradingScale =
      firstMatch (if gradingScale = 5 then gradeTable5 else gradeTable4) "F" marks := by
  have hin : ¬ (marks < 0 ∨ marks > 100) := by
    push_neg
    exact ⟨h0, h100⟩
  rcases eq_or_ne gradingScale 5 with rfl | hs
  · rw [if_pos rfl]
    unfold getGradeFromMarks
    rw [if_neg hin, if_pos rfl]
    simp only [firstMatch, gradeTable5, ge_iff_le]
  · rw [if_neg hs]
    unfold getGradeFromMarks
    rw [if_neg hin, if_neg hs]
    simp only [firstMatch, gradeTable4, ge_iff_le]

/-- Witness for C4 at marks 80 on both scales. -/
theorem C4_witness :
    getGradeFromMarks 80 5 =
      firstMatch (if (5 : ℚ) = 5 then gradeTable5 else gradeTable4) "F" 80 ∧
    getGradeFromMarks 80 4 =
      firstMatch (if (4 : ℚ) = 5 then gradeTable5 else gradeTable4) "F" 80 :=
  ⟨C4_getGradeFromMarks_table 80 5 (by norm_num) (by norm_num),
   C4_getGradeFromMarks_table 80 4 (by norm_num) (by norm_num)⟩

/-- C5: `getGradeFromMarks` returns the empty string exactly when marks lie
outside [0,100]; on in-range marks the returned grade is non-empty.  (The
function is total, so no exception can be raised.) -/
theorem C5_getGradeFromMarks_empty_iff (marks gradingScale : ℚ) :
    getGradeFromMarks marks gradingScale = "" ↔ marks < 0 ∨ marks > 100 := by
  unfold getGradeFromMarks
  rcases Classical.em (marks < 0 ∨ marks > 100) with h | h
  · rw [if_pos h]
    simp [h]
  · rw [if_neg h]
    simp [ite_eq_iff, h]

/-- C6: `getGradeScale 5` is exactly the 5.0 table; every other selector
(4.0 included, and unrecognized values such as 999) yields exactly the 4.0
table, so `getGradeScale 999 = getGradeScale 4`. -/
theorem C6_getGradeScale_tables :
    getGradeScale 5 =
      [("A+", 5), ("A", 4.5), ("B+", 4), ("B", 3.5), ("C+", 3), ("C", 2.5),
       ("D+", 2), ("D", 1.5), ("F", 0)] ∧
    (∀ maxScale : ℚ, maxScale ≠ 5 →
      getGradeScale maxScale =
        [("A+", 4), ("A", 4), ("B+", 3.5), ("B", 3), ("C+", 2.5), ("C", 2),
         ("D+", 1.5), ("D", 1), ("F", 0)]) ∧
    getGradeScale 999 = getGradeScale 4 := by
  refine ⟨by norm_num [getGradeScale], fun maxScale hs => by simp [getGradeScale, hs],
    by norm_num [getGradeScale]⟩

/-- Witness for C6: the fallback branch at the unrecognized selector 999. -/
theorem C6_witness :
    (999 : ℚ) ≠ 5 ∧
    getGradeScale 999 =
      [("A+", 4), ("A", 4), ("B+", 3.5), ("B", 3), ("C+", 2.5), ("C", 2),
       ("D+", 1.5), ("D", 1), ("F", 0)] :=
  ⟨by norm_num, C6_getGradeScale_tables.2.1 999 (by norm_num)⟩

/-- C7: the class field of `getAcademicClass` follows the descending
six-band ladder of the selected scale (the 5.0 ladder for selector 5.0,
the 4.0 ladder for every other selector, `Fail` as fallback); in
particular 3.6 on the 4.0 scale is First Class while 3.59 is Second Class
(Upper). -/
theorem C7_getAcademicClass_ladder :
    (∀ cgpa gradingScale : ℚ,
      (getAcademicClass cgpa gradingScale).«class» =
        firstMatch (if gradingScale = 5 then classLadder5 else classLadder4)
          "Fail" cgpa) ∧
    (getAcademicClass 3.6 4).«class» = "First Class" ∧
    (getAcademicClass 3.59 4).«class» = "Second Class (Upper)" := by
  refine ⟨fun cgpa gradingScale => ?_, by norm_num [getAcademicClass], by norm_num [getAcademicClass]⟩
  rcases eq_or_ne gradingScale 5 with rfl | hs
  · rw [if_pos rfl]
    unfold getAcademicClass
    rw [if_pos rfl]
    simp only [firstMatch, classLadder5, ge_iff_le, apply_ite AcademicClass.«class»]
  · rw [if_neg hs]
    unfold getAcademicClass
    rw [if_neg hs]
    simp only [firstMatch, classLadder4, ge_iff_le, apply_ite AcademicClass.«class»]

/-- C8: every `Semester` produced by `handleSave` has `gpa` equal to
`calculateGPA` of its courses and `totalCredits` equal to the sum of their
credits; the saved courses are exactly the input courses surviving the
validity filter, so each has positive credits and a non-empty grade. -/
theorem C8_handleSave_invariant (semesterName : String) (courses : List Course)
    (sem : Semester) (h : handleSave semesterName courses = some sem) :
    sem.gpa = calculateGPA sem.courses ∧
    sem.totalCredits = (sem.courses.map fun c => c.credits).sum ∧
    sem.courses = courses.filter (fun c => decide c.isValid) ∧
    ∀ c ∈ sem.courses, 0 < c.credits ∧ c.grade ≠ "" := by
  simp only [handleSave] at h
  split_ifs at h with h1 h2
  rw [Option.some.injEq] at h
  subst h
  refine ⟨rfl, ?_, rfl, ?_⟩
  · simp [foldl_add_map]
  · intro c hc
    have hm := (List.mem_filter.mp hc).2
    rw [decide_eq_true_eq] at hm
    exact ⟨hm.2.1, hm.2.2⟩

/-- Witness for C8 on a concrete save of one valid course. -/
theorem C8_witness :
    (⟨"Fall 2024", [⟨"Math", 3, "A", 4⟩], 4, 3⟩ : Semester).gpa =
      calculateGPA (⟨"Fall 2024", [⟨"Math", 3, "A", 4⟩], 4, 3⟩ : Semester).courses ∧
    (⟨"Fall 2024", [⟨"Math", 3, "A", 4⟩], 4, 3⟩ : Semester).totalCredits =
      ((⟨"Fall 2024", [⟨"Math", 3, "A", 4⟩], 4, 3⟩ : Semester).courses.map
        fun c => c.credits).sum ∧
    (⟨"Fall 2024", [⟨"Math", 3, "A", 4⟩], 4, 3⟩ : Semester).courses =
      [⟨"Math", 3, "A", 4⟩].filter (fun c => decide c.isValid) ∧
    ∀ c ∈ (⟨"Fall 2024", [⟨"Math", 3, "A", 4⟩], 4, 3⟩ : Semester).courses,
      0 < c.credits ∧ c.grade ≠ "" :=
  C8_handleSave_invariant "Fall 2024" [⟨"Math", 3, "A", 4⟩] _ (by
    have htrim : trimString "Fall 2024" = "Fall 2024" := by decide
    have hvalid : (decide (Course.isValid ⟨"Math", 3, "A", 4⟩)) = true := by
      rw [decide_eq_true_eq]
      refine ⟨by decide, by norm_num, by decide⟩
    simp only [handleSave, htrim]
    rw [if_neg (by decide : ¬ ("Fall 2024" : String) = "")]
    simp only [List.filter, hvalid]
    norm_num [calculateGPA])

/-- C9: on a non-empty course list with positive credits where every
course's grade point equals the same constant `k`, `calculateGPA` returns
`k` — the weighted mean degenerates to the constant. -/
theorem C9_calculateGPA_constant (courses : List Course) (k : ℚ)
    (hne : courses ≠ []) (hpos : ∀ c ∈ courses, 0 < c.credits)
    (hk : ∀ c ∈ courses, c.gradePoint = k) :
    calculateGPA courses = k := by
  have hlen : ¬ courses.length = 0 := by simpa [List.length_eq_zero] using hne
  have hsum : 0 < (courses.map fun c => c.credits).sum := by
    refine List.sum_pos _ ?_ (by simpa using hne)
    intro x hx
    obtain ⟨c, hc, rfl⟩ := List.mem_map.mp hx
    exact hpos c hc
  have hmap : (courses.map fun c => c.gradePoint * c.credits) =
      courses.map fun c => k * c.credits := by
    refine List.map_congr_left ?_
    intro c hc
    rw [hk c hc]
  simp only [calculateGPA, foldl_add_map, zero_add, hlen, if_false]
  rw [if_pos hsum, hmap, List.sum_map_mul_left, mul_div_assoc,
    div_self hsum.ne', mul_one]

/-- Witness for C9: two courses with distinct positive credits and equal
grade point 4. -/
theorem C9_witness :
    calculateGPA [⟨"Math", 3, "A", 4⟩, ⟨"Phys", 5, "A", 4⟩] = 4 :=
  C9_calculateGPA_constant [⟨"Math", 3, "A", 4⟩, ⟨"Phys", 5, "A", 4⟩] 4
    (by decide) (by decide) (by decide)

/-- C10: under exact rational arithmetic, a student who completes the
remaining credits at exactly the GPA projected by `calculateRequiredGPA`
reaches the target CGPA: `calculateCGPA` of the current semester block and
the projected one equals `targetCGPA`. -/
theorem C10_requiredGPA_roundtrip
    (currentCGPA currentCredits targetCGPA remainingCredits : ℚ)
    (hcc : 0 ≤ currentCredits) (hrc : 0 < remainingCredits) :
    calculateCGPA
      [⟨"Current", [], currentCGPA, currentCredits⟩,
       ⟨"Projected", [],
        calculateRequiredGPA currentCGPA currentCredits targetCGPA remainingCredits,
        remainingCredits⟩] = targetCGPA := by
  have hns : ¬ remainingCredits ≤ 0 := not_le.mpr hrc
  have htot : (0 : ℚ) < currentCredits + remainingCredits := by linarith
  simp only [calculateCGPA, calculateRequiredGPA, hns, if_false, List.foldl,
    List.length_cons, List.length_nil]
  norm_num
  rw [if_pos (by linarith)]
  field_simp

/-- Witness for C10 with the spec's running example (3.0 over 30 credits,
target 3.5 with 10 credits remaining). -/
theorem C10_witness :
    calculateCGPA
      [⟨"Current", [], 3, 30⟩,
       ⟨"Projected", [], calculateRequiredGPA 3 30 3.5 10, 10⟩] = 3.5 :=
  C10_requiredGPA_roundtrip 3 30 3.5 10 (by norm_num) (by norm_num)

end GPACalc
